/-
Verification of the ESG Real Estate Monitor pipeline (esg-re-monitor).

Shallow embedding of the Python sources:
  - mcp_server.py      : SQLite store (digests, theme_tracking), tool handlers
  - run_api_monitor.py : standalone pipeline (search loop, database, run_monitor)
  - run_monitor.py     : alternate driver (run_weekly_monitor)
  - config.py          : configuration constants (RELEVANCE_THRESHOLD, queries)

SQLite tables are modelled as Lean lists of row structures; SQL statements
(INSERT OR REPLACE, SELECT ... ORDER BY ... LIMIT, CREATE TABLE IF NOT EXISTS)
are modelled by the corresponding list operations.  Date columns (declared
DATE/TEXT, holding YYYY-MM-DD strings such as "2025-06-01") are compared
lexicographically by SQLite; a well-formed YYYY-MM-DD string compares
lexicographically exactly as its digit reading YYYYMMDD compares numerically,
so dates are modelled as `Nat` (e.g. 20250601), with equality and order
agreeing with the source's string comparisons.  Python dict return values of
the tool handlers are modelled by the `PyValue` inductive type.
-/
import Mathlib

namespace EsgMonitor

/-- A Python value as returned by the MCP tool handlers: a string, an
integer, an ordered dict (Python dicts preserve insertion order), or a list. -/
inductive PyValue where
  | str : String → PyValue
  | int : Int → PyValue
  | dict : List (String × PyValue) → PyValue
  | list : List PyValue → PyValue

/-- Lookup of a key in a modelled Python dict; `none` when the value is not a
dict or the key is absent. -/
def PyValue.lookup (v : PyValue) (key : String) : Option PyValue :=
  match v with
  | .dict fields => fields.lookup key
  | _ => none

/-! ## Digests table (mcp_server.py / run_api_monitor.py)

`CREATE TABLE IF NOT EXISTS digests (id INTEGER PRIMARY KEY AUTOINCREMENT,
week_ending DATE UNIQUE, content TEXT, themes_json TEXT, created_at ...)`.
The `id` and `created_at` columns play no role in any claim (ordering and
lookups go through `week_ending`), so a row is modelled by its `week_ending`
key and its payload columns. -/

/-- One row of the `digests` table (mcp_server.py lines 104-112);
`week_ending` is the YYYY-MM-DD key read as the number YYYYMMDD. -/
structure DigestRow where
  week_ending : Nat
  content : String
  themes_json : String
deriving DecidableEq

/-- Store upsert `save_digest` / `save_to_database`:
`INSERT OR REPLACE INTO digests (week_ending, content, themes_json) VALUES (?, ?, ?)`
(mcp_server.py lines 151-154, run_api_monitor.py lines 282-285).
With the UNIQUE constraint on `week_ending`, SQLite's INSERT OR REPLACE
deletes any row that conflicts on `week_ending` and inserts the new row. -/
def save_digest (table : List DigestRow) (r : DigestRow) : List DigestRow :=
  table.filter (fun x => x.week_ending != r.week_ending) ++ [r]

/-- Descending order on digest rows by `week_ending`
(`ORDER BY week_ending DESC`). -/
def digestDesc (a b : DigestRow) : Prop := b.week_ending ≤ a.week_ending

instance : DecidableRel digestDesc := fun a b =>
  inferInstanceAs (Decidable (b.week_ending ≤ a.week_ending))

instance : IsTotal DigestRow digestDesc :=
  ⟨fun a b => le_total b.week_ending a.week_ending⟩

instance : IsTrans DigestRow digestDesc :=
  ⟨fun _ _ _ hab hbc => le_trans hbc hab⟩

/-- Retrieval `get_recent_digests`:
`SELECT week_ending, content, themes_json, created_at FROM digests
 ORDER BY week_ending DESC LIMIT ?` (mcp_server.py lines 167-172).
Modelled as sorting the table by `week_ending` descending and taking the
first `n` rows. -/
def get_recent_digests (table : List DigestRow) (n : Nat) : List DigestRow :=
  (List.insertionSort digestDesc table).take n

/-! ## Database schema initialisation (mcp_server.py `init_database`)

The database state records, for each of the three tables the schema creates,
whether the table exists and which rows it holds (`none` = table absent).
`CREATE TABLE IF NOT EXISTS t (...)` creates `t` empty when absent and is a
no-op when `t` exists. -/

/-- One row of the `items` table (mcp_server.py lines 114-128); columns that
no claim touches are carried as opaque strings. -/
structure ItemRow where
  title : String
  source : String
  url : String
  summary : String
  theme : String
  importance : String
  geographic_scope : String
deriving DecidableEq

/-- One row of the `theme_tracking` table
(mcp_server.py lines 130-138: `week_ending DATE, theme TEXT,
mention_count INTEGER, UNIQUE(week_ending, theme)`). -/
structure ThemeRow where
  week_ending : Nat
  theme : String
  mention_count : Int
deriving DecidableEq

/-- The SQLite database file behind `DATABASE_PATH`: each field is `none`
when the corresponding table does not exist yet, `some rows` when it does. -/
structure DBState where
  digests : Option (List DigestRow)
  items : Option (List ItemRow)
  theme_tracking : Option (List ThemeRow)
deriving DecidableEq

/-- Effect of `CREATE TABLE IF NOT EXISTS` on a single table: keep the rows when the
table exists, create it empty otherwise. -/
def createTableIfNotExists {α : Type} (t : Option (List α)) : Option (List α) :=
  some (t.getD [])

/-- Schema creation `init_database` (mcp_server.py lines 97-141): three
`CREATE TABLE IF NOT EXISTS` statements, one per table. -/
def init_database (s : DBState) : DBState :=
  { digests := createTableIfNotExists s.digests
    items := createTableIfNotExists s.items
    theme_tracking := createTableIfNotExists s.theme_tracking }

/-! ## Theme trends (mcp_server.py `get_theme_trends`, `handle_get_theme_trends`)

The query `SELECT theme, week_ending, mention_count FROM theme_tracking
WHERE week_ending >= ? ORDER BY week_ending DESC` is modelled as filtering
the table by the cutoff and sorting by `week_ending` descending; the Python
loop that groups rows into the `trends` dict is modelled by a fold that
mirrors it row by row.  The cutoff `(datetime.now() - timedelta(weeks=weeks))`
(mcp_server.py line 194) is real time, so it enters the model as a parameter:
`cutoff` stands for now minus the requested number of weeks, in YYYYMMDD
form. -/

/-- Descending order on `theme_tracking` rows by `week_ending`
(`ORDER BY week_ending DESC`). -/
def themeDesc (a b : ThemeRow) : Prop := b.week_ending ≤ a.week_ending

instance : DecidableRel themeDesc := fun a b =>
  inferInstanceAs (Decidable (b.week_ending ≤ a.week_ending))

instance : IsTotal ThemeRow themeDesc :=
  ⟨fun a b => le_total b.week_ending a.week_ending⟩

instance : IsTrans ThemeRow themeDesc :=
  ⟨fun _ _ _ hab hbc => le_trans hbc hab⟩

/-- One element of a theme's trend series: the Python dict
`{"week": week, "count": count}` (mcp_server.py line 208). -/
structure TrendPoint where
  week : Nat
  count : Int
deriving DecidableEq

/-- The trend point built from one `theme_tracking` row. -/
def trendPoint (r : ThemeRow) : TrendPoint :=
  ⟨r.week_ending, r.mention_count⟩

/-- One iteration of the grouping loop (mcp_server.py lines 204-208):
`if theme not in trends: trends[theme] = []` then
`trends[theme].append({"week": week, "count": count})`.  The accumulator is
the `trends` dict as an insertion-ordered association list. -/
def addTrendRow (acc : List (String × List TrendPoint)) (r : ThemeRow) :
    List (String × List TrendPoint) :=
  if acc.any (fun p => p.1 == r.theme) then
    acc.map (fun p => if p.1 == r.theme then (p.1, p.2 ++ [trendPoint r]) else p)
  else
    acc ++ [(r.theme, [trendPoint r])]

/-- Trend query `get_theme_trends` (mcp_server.py lines 187-211): the rows
with `week_ending >= cutoff`, ordered by `week_ending` descending, grouped
into the `trends` dict theme by theme. -/
def get_theme_trends (table : List ThemeRow) (cutoff : Nat) :
    List (String × List TrendPoint) :=
  (List.insertionSort themeDesc
      (table.filter (fun r => decide (cutoff ≤ r.week_ending)))).foldl
    addTrendRow []

/-- Rendering of one trend point as the handler's JSON-ish value. -/
def renderTrendPoint (p : TrendPoint) : PyValue :=
  .dict [("week", .int p.week), ("count", .int p.count)]

/-- Rendering of the whole `trends` dict. -/
def renderTrends (trends : List (String × List TrendPoint)) : PyValue :=
  .dict (trends.map (fun p => (p.1, PyValue.list (p.2.map renderTrendPoint))))

/-- Tool handler `handle_get_theme_trends` (mcp_server.py lines 461-468):
`if theme and theme in trends: return {"theme": theme, "trends": trends[theme]}`
else `return {"all_themes": trends}`.  `theme` is `None` or a string; the
Python truthiness test makes the empty string fall through to the
all-themes branch. -/
def handle_get_theme_trends (table : List ThemeRow) (cutoff : Nat)
    (theme : Option String) : PyValue :=
  let trends := get_theme_trends table cutoff
  match theme with
  | some t =>
      if t != "" && trends.any (fun p => p.1 == t) then
        .dict [("theme", .str t),
          ("trends", .list (((trends.lookup t).getD []).map renderTrendPoint))]
      else
        .dict [("all_themes", renderTrends trends)]
  | none => .dict [("all_themes", renderTrends trends)]

/-- Descending order on trend points by week, the order `trendPoint`
transports `themeDesc` to. -/
def pointDesc (a b : TrendPoint) : Prop := b.week ≤ a.week

/-- Characterisation of the grouping fold: `(t, pts)` is an entry of the
`trends` dict built from `rows` exactly when some row has theme `t`, and
then `pts` lists the points of the rows with theme `t` in row order. -/
theorem foldl_addTrendRow_mem (rows : List ThemeRow) (t : String)
    (pts : List TrendPoint) :
    (t, pts) ∈ rows.foldl addTrendRow [] ↔
      (rows.filter (fun x => x.theme == t)) ≠ []
      ∧ pts = ((rows.filter (fun x => x.theme == t)).map trendPoint) := by
  induction rows using List.reverseRecOn generalizing t pts with
  | nil => simp
  | append_singleton rs r ih =>
    simp only [List.foldl_append, List.foldl_cons, List.foldl_nil]
    have hany : ((rs.foldl addTrendRow []).any (fun p => p.1 == r.theme) = true)
        ↔ rs.filter (fun x => x.theme == r.theme) ≠ [] := by
      constructor
      · intro h
        obtain ⟨⟨t₀, pts₀⟩, hmem, hkey⟩ := List.any_eq_true.mp h
        have ht₀ : t₀ = r.theme := by simpa using hkey
        rw [ht₀] at hmem
        exact ((ih r.theme pts₀).mp hmem).1
      · intro h
        exact List.any_eq_true.mpr
          ⟨(r.theme, (rs.filter (fun x => x.theme == r.theme)).map trendPoint),
            (ih _ _).mpr ⟨h, rfl⟩, by simp⟩
    by_cases hq : (r.theme == t) = true
    · have hrt : r.theme = t := beq_iff_eq.mp hq
      have hfilter : (rs ++ [r]).filter (fun x => x.theme == t)
          = rs.filter (fun x => x.theme == t) ++ [r] := by
        simp [List.filter_append, hq]
      rw [hfilter]
      by_cases hc : ((rs.foldl addTrendRow []).any (fun p => p.1 == r.theme)) = true
      · simp only [addTrendRow]
        rw [if_pos hc]
        constructor
        · intro h
          obtain ⟨⟨t₀, pts₀⟩, hp, hfp⟩ := List.mem_map.mp h
          by_cases h₀ : (t₀ == r.theme) = true
          · rw [if_pos h₀, Prod.mk.injEq] at hfp
            dsimp only at hfp
            obtain ⟨ht₀, hpts⟩ := hfp
            obtain ⟨hne₀, hpts₀⟩ := (ih t₀ pts₀).mp hp
            rw [ht₀] at hne₀ hpts₀
            refine ⟨by simp, ?_⟩
            rw [← hpts, hpts₀]
            simp
          · rw [if_neg h₀, Prod.mk.injEq] at hfp
            exact absurd (beq_iff_eq.mpr (hfp.1.trans hrt.symm)) h₀
        · rintro ⟨-, hpts⟩
          have hne : rs.filter (fun x => x.theme == t) ≠ [] := by
            have := hany.mp hc
            rwa [hrt] at this
          refine List.mem_map.mpr
            ⟨(t, (rs.filter (fun x => x.theme == t)).map trendPoint),
              (ih _ _).mpr ⟨hne, rfl⟩, ?_⟩
          rw [if_pos (beq_iff_eq.mpr hrt.symm), hpts]
          simp
      · simp only [addTrendRow]
        rw [if_neg hc]
        have hempty : rs.filter (fun x => x.theme == t) = [] := by
          by_contra h
          exact hc (hany.mpr (by rwa [hrt]))
        rw [hempty]
        constructor
        · intro h
          rcases List.mem_append.mp h with h | h
          · exact absurd ((ih _ _).mp h).1 (by simp [hempty])
          · have h' := List.mem_singleton.mp h
            rw [Prod.mk.injEq] at h'
            simp [h'.2]
        · rintro ⟨-, hpts⟩
          refine List.mem_append.mpr (Or.inr (List.mem_singleton.mpr ?_))
          rw [Prod.mk.injEq]
          refine ⟨hrt.symm, ?_⟩
          simpa using hpts
    · have htne : ¬ t = r.theme := fun h => hq (beq_iff_eq.mpr (h ▸ rfl))
      have hbt : (r.theme == t) = false := by simpa using hq
      have hfilter : (rs ++ [r]).filter (fun x => x.theme == t)
          = rs.filter (fun x => x.theme == t) := by
        simp [List.filter_append, hbt]
      rw [hfilter, ← ih t pts]
      by_cases hc : ((rs.foldl addTrendRow []).any (fun p => p.1 == r.theme)) = true
      · simp only [addTrendRow]
        rw [if_pos hc]
        constructor
        · intro h
          obtain ⟨⟨t₀, pts₀⟩, hp, hfp⟩ := List.mem_map.mp h
          by_cases h₀ : (t₀ == r.theme) = true
          · rw [if_pos h₀, Prod.mk.injEq] at hfp
            dsimp only at hfp
            exact absurd (hfp.1 ▸ beq_iff_eq.mp h₀ : t = r.theme).symm
              (fun h => htne h.symm)
          · rw [if_neg h₀] at hfp
            exact hfp ▸ hp
        · intro h
          refine List.mem_map.mpr ⟨(t, pts), h, ?_⟩
          exact if_neg (fun habs => htne (beq_iff_eq.mp habs))
      · simp only [addTrendRow]
        rw [if_neg hc]
        constructor
        · intro h
          rcases List.mem_append.mp h with h | h
          · exact h
          · have h' := List.mem_singleton.mp h
            rw [Prod.mk.injEq] at h'
            exact absurd h'.1 htne
        · intro h
          exact List.mem_append.mpr (Or.inl h)

/-! ## Collection loop and pipeline run (run_api_monitor.py)

The search phase of `run_monitor` (lines 295-365) iterates
`SEARCH_QUERIES.items()`, calls `search_with_claude` per query inside
`try`, appends `{"category", "query", "response"}` on success, and on any
exception only prints the error — nothing is appended and the loop moves
on.  The oracle call is modelled as a function returning `Except`
(a raised exception is `Except.error`). -/

/-- One element of `all_results` (run_api_monitor.py lines 329-333). -/
structure RawEntry where
  category : String
  query : String
  response : String
deriving DecidableEq

/-- Inner query loop of the search phase (run_api_monitor.py lines 321-335):
try / append on success; on exception print and continue with the next
query, appending nothing. -/
def searchCategoryLoop (oracle : String → Except String String)
    (category : String) : List String → List RawEntry
  | [] => []
  | q :: qs =>
    match oracle q with
    | .ok resp => ⟨category, q, resp⟩ :: searchCategoryLoop oracle category qs
    | .error _ => searchCategoryLoop oracle category qs

/-- The search phase of `run_monitor` (run_api_monitor.py lines 315-335):
categories in catalog order, queries within a category in declared order. -/
def run_monitor_search (oracle : String → Except String String) :
    List (String × List String) → List RawEntry
  | [] => []
  | (c, qs) :: rest =>
    searchCategoryLoop oracle c qs ++ run_monitor_search oracle rest

/-- Value returned by `run_monitor` (run_api_monitor.py lines 353, 365):
`str(md_path)` with `md_path = OUTPUT_DIR / "esg_re_digest_<week>.md"` and
`OUTPUT_DIR = Path("outputs")` — a bare path string, whatever the oracle
did during collection. -/
def run_monitor_return (week_ending_str : String) : PyValue :=
  PyValue.str ("outputs/esg_re_digest_" ++ week_ending_str ++ ".md")

/-- Value returned by `run_weekly_monitor` (run_monitor.py lines 262, 302,
310): `os.path.join(OUTPUT_DIR, "esg_re_digest_<date>.md")` with
`OUTPUT_DIR = "outputs"` from config.py. -/
def run_weekly_monitor_return (date_str : String) : PyValue :=
  PyValue.str ("outputs/esg_re_digest_" ++ date_str ++ ".md")

/-- The shape C7 asserts of the run entry point return value (spec section
6: a record with a status in success/partial/failed plus a digest path or
id), stated of a `PyValue`: a dict whose "status" entry is one of the three
status strings.  Written from the spec, to compare against what the code
returns. -/
def isRunRecordB (v : PyValue) : Bool :=
  match v with
  | .dict fields =>
    match fields.lookup "status" with
    | some (.str s) => s == "success" || s == "partial" || s == "failed"
    | _ => false
  | _ => false

/-- An oracle whose every call raises (e.g. a timeout), exercising the
failure path of the collection loop. -/
def timeoutOracle : String → Except String String :=
  fun _ => Except.error "timeout"

/-! ## Oracle-call pacing (C4)

The trace of oracle-affecting actions the search loop of `run_monitor`
performs: one API call (`search_with_claude`, run_api_monitor.py lines
90-137) per query.  Neither `search_with_claude` nor `run_monitor` contains
any sleep or delay statement — the `time` module is not even imported — so
the emitted trace consists of call events only. -/

/-- An action observable by the rate-limited oracle: sleeping for some
seconds, or issuing a call for a query. -/
inductive OracleEvent where
  | sleep : Nat → OracleEvent
  | call : String → OracleEvent
deriving DecidableEq

/-- True of call events. -/
def OracleEvent.isCall : OracleEvent → Bool
  | .sleep _ => false
  | .call _ => true

/-- Trace of events emitted by the search loop of `run_monitor`
(run_api_monitor.py lines 315-335): a call per query, nothing else. -/
def search_loop_trace : List (String × List String) → List OracleEvent
  | [] => []
  | (_, qs) :: rest => qs.map OracleEvent.call ++ search_loop_trace rest

/-- Pacing property of a trace, as C4 asserts it: at least `delay` seconds
of sleep have accumulated before every call (`acc` carries the sleep
accumulated since the previous call). -/
def pacedFromB (delay : Nat) : Nat → List OracleEvent → Bool
  | _, [] => true
  | acc, OracleEvent.sleep d :: rest => pacedFromB delay (acc + d) rest
  | acc, OracleEvent.call _ :: rest =>
    decide (delay ≤ acc) && pacedFromB delay 0 rest

/-- A trace is paced with minimum inter-call delay `delay` when every call,
the first included, is preceded by at least `delay` of accumulated sleep. -/
def paced (delay : Nat) (tr : List OracleEvent) : Bool :=
  pacedFromB delay 0 tr

/-- Catalog `SEARCH_QUERIES` (run_api_monitor.py lines 39-66). -/
def SEARCH_QUERIES : List (String × List String) :=
  [("news",
    ["ESG real estate news", "sustainable buildings news",
     "net zero buildings real estate", "green real estate investment",
     "building decarbonization"]),
   ("regulatory",
    ["EU taxonomy real estate", "CSRD real estate reporting",
     "UK MEES regulations", "SEC climate disclosure buildings",
     "ISSB sustainability standards"]),
   ("research",
    ["GRESB real estate results", "green building certification statistics",
     "ESG property valuation study", "carbon risk real estate report"]),
   ("market",
    ["green bond real estate", "sustainable REIT news",
     "PropTech sustainability", "green building transaction"])]

/-! ## Category search handler (mcp_server.py `handle_search_category`) -/

/-- Catalog `SEARCH_CATEGORIES` (mcp_server.py lines 46-81): category key,
description, query list. -/
def SEARCH_CATEGORIES : List (String × String × List String) :=
  [("news", "General ESG real estate news",
    ["ESG real estate news", "sustainable buildings news",
     "net zero buildings real estate", "green real estate investment"]),
   ("regulatory", "Regulatory and policy updates",
    ["EU taxonomy real estate", "CSRD real estate reporting",
     "UK MEES regulations", "SEC climate disclosure buildings"]),
   ("research", "Research reports and studies",
    ["GRESB real estate results", "green building performance study",
     "ESG property valuation research"]),
   ("market", "Market developments and transactions",
    ["green bond real estate", "sustainable REIT",
     "PropTech sustainability"])]

/-- Tool handler `handle_search_category` (mcp_server.py lines 335-348):
an unknown category yields the error dict naming it; a known one yields
the catalog description and query list unchanged plus the `days_back` echo
and a fixed instruction string. -/
def handle_search_category (category : String) (days_back : Nat) : PyValue :=
  match SEARCH_CATEGORIES.lookup category with
  | none => .dict [("error", .str ("Unknown category: " ++ category))]
  | some info =>
    .dict [("category", .str category),
      ("description", .str info.1),
      ("queries", .list (info.2.map PyValue.str)),
      ("days_back", .int days_back),
      ("instruction", .str ("Please perform web searches for each query in the queries list, filtered to the past "
        ++ toString days_back ++ " days. Collect the results for analysis."))]

/-! ## Analyze handler and relevance threshold (C3)

config.py line 198 declares the threshold for including items:
`RELEVANCE_THRESHOLD = 0.6`.  The MCP analyze handler
`handle_analyze_content` (mcp_server.py lines 351-375) performs no
filtering itself: it returns an instruction string directing the oracle to
"Filter out items with relevance < 0.5" (line 364) together with
`content_count = len(content)`.  The numeric cutoff named by the
instruction is carried as a field of the response model; relevance scores
are rationals in [0, 1]. -/

/-- Configuration constant `RELEVANCE_THRESHOLD` (config.py line 198). -/
def RELEVANCE_THRESHOLD : ℚ := 6 / 10

/-- The analyze handler response: the filtering cutoff its instruction
names, and the count of supplied content items. -/
structure AnalyzeResponse where
  instructionCutoff : ℚ
  content_count : Nat
deriving DecidableEq

/-- Tool handler `handle_analyze_content` (mcp_server.py lines 351-375). -/
def handle_analyze_content (content : List PyValue) : AnalyzeResponse :=
  ⟨5 / 10, content.length⟩

end EsgMonitor

namespace EsgMonitor

/-- C1: after two `save_digest` calls for the same `week_ending` key `P`,
the digests table holds exactly one row keyed `P`, carrying the second
content. -/
theorem save_digest_twice_replaces (table : List DigestRow)
    (P : Nat) (c1 c2 t1 t2 : String) :
    (save_digest (save_digest table ⟨P, c1, t1⟩) ⟨P, c2, t2⟩).filter
      (fun r => r.week_ending == P) = [⟨P, c2, t2⟩] := by
  simp only [save_digest, List.filter_append, List.filter_filter]
  simp

/-- C8: schema initialisation is idempotent — running `init_database` a
second time changes neither the set of tables nor any stored rows. -/
theorem init_database_idempotent (s : DBState) :
    init_database (init_database s) = init_database s := by
  simp [init_database, createTableIfNotExists]

/-- C5: `get_recent_digests` returns at most `n` digests (exactly `n` when
the table has that many), every one of them stored in the table, ordered by
`week_ending` descending, and they are the most recent ones: any stored
digest left out is no more recent than any returned one. -/
theorem get_recent_digests_spec (table : List DigestRow) (n : Nat) :
    (get_recent_digests table n).length = min n table.length
    ∧ List.Sorted digestDesc (get_recent_digests table n)
    ∧ (∀ a ∈ get_recent_digests table n, a ∈ table)
    ∧ ∀ a ∈ get_recent_digests table n, ∀ b ∈ table,
        b ∉ get_recent_digests table n → b.week_ending ≤ a.week_ending := by
  have hperm := List.perm_insertionSort digestDesc table
  have hsort := List.sorted_insertionSort digestDesc table
  refine ⟨?_, ?_, ?_, ?_⟩
  · simp [get_recent_digests, hperm.length_eq, Nat.min_comm]
  · exact hsort.sublist (List.take_sublist n _)
  · intro a ha
    exact hperm.mem_iff.mp ((List.take_sublist n _).mem ha)
  · intro a ha b hb hnot
    have hb' : b ∈ List.insertionSort digestDesc table := hperm.mem_iff.mpr hb
    rw [← List.take_append_drop n (List.insertionSort digestDesc table)] at hb'
    have hbdrop : b ∈ (List.insertionSort digestDesc table).drop n := by
      rcases List.mem_append.mp hb' with h | h
      · exact absurd h hnot
      · exact h
    have hs := hsort
    rw [List.Sorted, ← List.take_append_drop n (List.insertionSort digestDesc table),
      List.pairwise_append] at hs
    exact hs.2.2 a ha b hbdrop

/-- Association-list lookup returns the value of a member entry when every
entry with that key carries the same value. -/
theorem lookup_eq_of_mem_of_unique {β : Type} {l : List (String × β)}
    {t : String} {v : β} (hmem : (t, v) ∈ l)
    (huniq : ∀ w, (t, w) ∈ l → w = v) :
    l.lookup t = some v := by
  induction l with
  | nil => cases hmem
  | cons p l ih =>
    obtain ⟨k, w⟩ := p
    by_cases hk : (t == k) = true
    · have hkt : t = k := beq_iff_eq.mp hk
      have hw : w = v := huniq w (by rw [hkt]; exact List.mem_cons_self _ _)
      simp [List.lookup, hk, hw]
    · have hrec : l.lookup t = some v := by
        apply ih
        · rcases List.mem_cons.mp hmem with h | h
          · rw [Prod.mk.injEq] at h
            exact absurd (beq_iff_eq.mpr h.1) hk
          · exact h
        · intro w' hw'
          exact huniq w' (List.mem_cons_of_mem _ hw')
      have hk' : (t == k) = false := by simpa using hk
      simp [List.lookup, hk', hrec]

/-- C10: in the mapping built by `get_theme_trends`, every theme's series is
non-empty and ordered by week descending (most recent first). -/
theorem get_theme_trends_entry_inv (table : List ThemeRow) (cutoff : Nat)
    (t : String) (pts : List TrendPoint)
    (hmem : (t, pts) ∈ get_theme_trends table cutoff) :
    pts ≠ [] ∧ List.Sorted pointDesc pts := by
  rw [get_theme_trends] at hmem
  obtain ⟨hne, hpts⟩ := (foldl_addTrendRow_mem _ t pts).mp hmem
  constructor
  · rw [hpts]
    simpa using hne
  · rw [hpts]
    have hs := List.sorted_insertionSort themeDesc
      (table.filter (fun r => decide (cutoff ≤ r.week_ending)))
    exact (hs.filter _).map trendPoint (fun a b h => h)

/-- Witness for C10 on a one-row table. -/
theorem get_theme_trends_entry_inv_witness :
    ([⟨20250601, 3⟩] : List TrendPoint) ≠ []
    ∧ List.Sorted pointDesc ([⟨20250601, 3⟩] : List TrendPoint) :=
  get_theme_trends_entry_inv [⟨20250601, "carbon_emissions", 3⟩] 20250101
    "carbon_emissions" [⟨20250601, 3⟩] (by decide)

/-- C6 (amended): a theme's series in the trend mapping consists of exactly
the stored `theme_tracking` rows with `week_ending` on or after the cutoff
and that theme; and when the supplied theme filter is non-empty and names a
theme present in the windowed results, the handler returns just that theme's
series. -/
theorem handle_get_theme_trends_spec (table : List ThemeRow) (cutoff : Nat)
    (t : String) (pts : List TrendPoint) (hne : t ≠ "")
    (hmem : (t, pts) ∈ get_theme_trends table cutoff) :
    pts.Perm (((table.filter (fun r => decide (cutoff ≤ r.week_ending))).filter
        (fun x => x.theme == t)).map trendPoint)
    ∧ handle_get_theme_trends table cutoff (some t)
        = PyValue.dict [("theme", PyValue.str t),
            ("trends", PyValue.list (pts.map renderTrendPoint))] := by
  have hchar := (foldl_addTrendRow_mem _ t pts).mp
    (by rw [get_theme_trends] at hmem; exact hmem)
  obtain ⟨hnonnil, hpts⟩ := hchar
  constructor
  · rw [hpts]
    exact (((List.perm_insertionSort themeDesc _).filter _).map trendPoint)
  · have hlookup : (get_theme_trends table cutoff).lookup t = some pts := by
      apply lookup_eq_of_mem_of_unique hmem
      intro w hw
      obtain ⟨-, hw'⟩ := (foldl_addTrendRow_mem _ t w).mp
        (by rw [get_theme_trends] at hw; exact hw)
      rw [hw', hpts]
    have htrue : (t != ""
        && (get_theme_trends table cutoff).any (fun p => p.1 == t)) = true := by
      rw [Bool.and_eq_true]
      refine ⟨by simpa using hne,
        List.any_eq_true.mpr ⟨(t, pts), hmem, by simp⟩⟩
    simp only [handle_get_theme_trends]
    rw [if_pos htrue, hlookup]
    rfl

/-- Witness for C6 on a one-row table whose theme is the supplied filter. -/
theorem handle_get_theme_trends_spec_witness :
    "carbon_emissions" ≠ ""
    ∧ handle_get_theme_trends [⟨20250601, "carbon_emissions", 3⟩] 20250101
        (some "carbon_emissions")
      = PyValue.dict [("theme", PyValue.str "carbon_emissions"),
          ("trends", PyValue.list [renderTrendPoint ⟨20250601, 3⟩])] :=
  ⟨by decide,
    (handle_get_theme_trends_spec [⟨20250601, "carbon_emissions", 3⟩]
      20250101 "carbon_emissions" [⟨20250601, 3⟩] (by decide) (by decide)).2⟩

/-- C6, counterexample to the claim as stated: with one stored
`carbon_emissions` row in the window and the filter `energy_efficiency`
supplied, the handler does not restrict the result to the supplied theme —
it returns the full all-themes mapping (the filter only takes effect when
the named theme is present in the windowed results). -/
theorem handle_get_theme_trends_filter_cex :
    handle_get_theme_trends [⟨20250601, "carbon_emissions", 3⟩] 20250101
        (some "energy_efficiency")
      = PyValue.dict [("all_themes", PyValue.dict [("carbon_emissions",
          PyValue.list [PyValue.dict [("week", PyValue.int 20250601),
            ("count", PyValue.int 3)]])])]
    ∧ (handle_get_theme_trends [⟨20250601, "carbon_emissions", 3⟩] 20250101
        (some "energy_efficiency")).lookup "theme" = none :=
  ⟨rfl, rfl⟩

/-- Witness for C5 on a concrete two-row table with limit 1. -/
theorem get_recent_digests_spec_witness :
    (get_recent_digests [⟨20250501, "a", "t"⟩, ⟨20250601, "b", "u"⟩] 1).length
        = min 1 [⟨20250501, "a", "t"⟩, (⟨20250601, "b", "u"⟩ : DigestRow)].length
    ∧ (20250501 : Nat) ≤ 20250601 :=
  ⟨(get_recent_digests_spec [⟨20250501, "a", "t"⟩, ⟨20250601, "b", "u"⟩] 1).1,
    (get_recent_digests_spec [⟨20250501, "a", "t"⟩, ⟨20250601, "b", "u"⟩] 1).2.2.2
      ⟨20250601, "b", "u"⟩ (by decide) ⟨20250501, "a", "t"⟩ (by decide) (by decide)⟩


/-- C2 (amended): the collection loop tolerates per-query oracle failures —
no exception escapes it — but a failed query contributes nothing: the
output lists precisely one RawResult per successful query, in catalog
order, and the run still returns the digest path whatever the oracle did. -/
theorem run_monitor_search_spec (oracle : String → Except String String)
    (catalog : List (String × List String)) (w : String) :
    run_monitor_search oracle catalog
      = catalog.flatMap (fun cq => cq.2.filterMap (fun q =>
          match oracle q with
          | .ok resp => some ⟨cq.1, q, resp⟩
          | .error _ => none))
    ∧ run_monitor_return w
        = PyValue.str ("outputs/esg_re_digest_" ++ w ++ ".md") := by
  refine ⟨?_, rfl⟩
  induction catalog with
  | nil => rfl
  | cons cq rest ih =>
    obtain ⟨c, qs⟩ := cq
    simp only [run_monitor_search, List.flatMap_cons, ih]
    congr 1
    induction qs with
    | nil => rfl
    | cons q qs ihq =>
      simp only [searchCategoryLoop, List.filterMap_cons]
      cases oracle q with
      | ok resp => simp [ihq]
      | error e => simp [ihq]

/-- C2, counterexample to the claim as stated: when the oracle times out on
query "Y", the collector output is empty — it does not contain a RawResult
for "Y" with empty text and an error marker; the failed query is simply
skipped. -/
theorem run_monitor_search_drop_cex :
    run_monitor_search timeoutOracle [("news", ["Y"])] = []
    ∧ (run_monitor_search timeoutOracle [("news", ["Y"])]).all
        (fun e => e.query != "Y") = true :=
  ⟨rfl, rfl⟩

/-- C4 (amended): the search loop enforces no inter-call delay at all — its
trace is exactly one call event per catalog query, in order, with no sleep
events anywhere. -/
theorem search_loop_trace_spec (catalog : List (String × List String)) :
    search_loop_trace catalog
      = (catalog.flatMap Prod.snd).map OracleEvent.call
    ∧ (search_loop_trace catalog).all OracleEvent.isCall = true := by
  have h1 : search_loop_trace catalog
      = (catalog.flatMap Prod.snd).map OracleEvent.call := by
    induction catalog with
    | nil => rfl
    | cons cq rest ih =>
      obtain ⟨c, qs⟩ := cq
      simp [search_loop_trace, ih]
  refine ⟨h1, ?_⟩
  rw [h1]
  generalize catalog.flatMap Prod.snd = l
  induction l with
  | nil => rfl
  | cons q l ih => simp [OracleEvent.isCall, ih]

/-- C4, counterexample to the claim as stated: with the configured catalog
and a delay of 30 seconds (tens-of-seconds range), the emitted trace is not
paced — the very first of its 18 calls is issued with no delay before it,
and no sleep separates any two calls. -/
theorem search_loop_trace_unpaced_cex :
    paced 30 (search_loop_trace SEARCH_QUERIES) = false
    ∧ (search_loop_trace SEARCH_QUERIES).length = 18 :=
  ⟨rfl, rfl⟩

/-- C7 (amended): both run entry points return the digest output path as a
bare string — not a record, and in particular nothing carrying a
success/partial/failed status. -/
theorem run_monitor_return_spec (w : String) :
    run_monitor_return w
      = PyValue.str ("outputs/esg_re_digest_" ++ w ++ ".md")
    ∧ run_weekly_monitor_return w = run_monitor_return w
    ∧ isRunRecordB (run_monitor_return w) = false :=
  ⟨rfl, rfl, rfl⟩

/-- C7, counterexample to the claim as stated: at the concrete period end
2025-06-01 the run entry point returns the plain path string, which is not
a record containing a status field. -/
theorem run_monitor_return_no_status_cex :
    isRunRecordB (run_monitor_return "2025-06-01") = false
    ∧ run_monitor_return "2025-06-01"
        = PyValue.str "outputs/esg_re_digest_2025-06-01.md" :=
  ⟨rfl, rfl⟩

/-- C9: a category absent from the catalog yields the error dict naming it
(no exception), and a configured category yields its declared description
and query list unchanged. -/
theorem handle_search_category_spec (c₁ c₂ : String) (d : Nat)
    (h₁ : SEARCH_CATEGORIES.lookup c₁ = none)
    (desc : String) (qs : List String)
    (h₂ : SEARCH_CATEGORIES.lookup c₂ = some (desc, qs)) :
    handle_search_category c₁ d
      = PyValue.dict [("error", PyValue.str ("Unknown category: " ++ c₁))]
    ∧ (handle_search_category c₂ d).lookup "description"
        = some (PyValue.str desc)
    ∧ (handle_search_category c₂ d).lookup "queries"
        = some (PyValue.list (qs.map PyValue.str)) := by
  refine ⟨?_, ?_, ?_⟩
  · simp only [handle_search_category, h₁]
  · simp only [handle_search_category, h₂]
    rfl
  · simp only [handle_search_category, h₂]
    rfl

/-- Witness for C9: the unknown category "bogus" and the configured
category "news". -/
theorem handle_search_category_spec_witness :
    handle_search_category "bogus" 7
      = PyValue.dict [("error", PyValue.str ("Unknown category: " ++ "bogus"))]
    ∧ (handle_search_category "news" 7).lookup "description"
        = some (PyValue.str "General ESG real estate news") :=
  ⟨(handle_search_category_spec "bogus" "news" 7 (by decide)
      "General ESG real estate news"
      ["ESG real estate news", "sustainable buildings news",
       "net zero buildings real estate", "green real estate investment"]
      (by decide)).1,
   (handle_search_category_spec "bogus" "news" 7 (by decide)
      "General ESG real estate news"
      ["ESG real estate news", "sustainable buildings news",
       "net zero buildings real estate", "green real estate investment"]
      (by decide)).2.1⟩

/-- C3: the threshold mismatch.  The repository configures
`RELEVANCE_THRESHOLD = 0.6` for including items, but the analyze handler
instructs filtering only below 0.5, so an item with relevance 0.55 — which
the claim requires to be excluded — lies strictly above the cutoff the
handler actually applies. -/
theorem analyze_threshold_code_bug :
    RELEVANCE_THRESHOLD = 6 / 10
    ∧ (handle_analyze_content []).instructionCutoff = 5 / 10
    ∧ (handle_analyze_content []).instructionCutoff < 11 / 20
    ∧ (11 / 20 : ℚ) < RELEVANCE_THRESHOLD := by
  refine ⟨rfl, rfl, ?_, ?_⟩
  · norm_num [handle_analyze_content]
  · norm_num [RELEVANCE_THRESHOLD]

end EsgMonitor
